import Mathlib

/-!
Shallow embedding of the socquery dashboard frontend (TypeScript/React) for
verification of the frozen claims. The embedded functions mirror, line by
line, the source files:
  src/src/app/dashboard/rules/page.tsx   (rule-creation form)
  src/src/app/dashboard/alerts/page.tsx  (alert-channel form and alert history view)
  src/src/lib/api.ts                     (apiFetch wrapper and agentApi request builders)
  src/unnamed/part_000                   (dashboard overview, formatTimeAgo)
Event handlers are modelled as pure functions from the relevant component
state to an outcome (an error message set via setError, or the API call that
is issued with its exact payload).
-/

/-- Model of JavaScript String.prototype.trim: strip whitespace from both
ends. Defined over the character list so that it evaluates by kernel
reduction on concrete inputs. -/
def jsTrim (s : String) : String :=
  String.mk
    (((s.data.dropWhile Char.isWhitespace).reverse.dropWhile
        Char.isWhitespace).reverse)

/-- Model of a JavaScript number as it flows through the rule form: either NaN
or a rational value. The form field ruleWindow is produced by Number(input),
which can be NaN or any finite value. -/
inductive JsNumber where
  | nan : JsNumber
  | val : ℚ → JsNumber
deriving DecidableEq

/-- The JavaScript comparison x < 1 used in handleCreateRule; any comparison
with NaN is false in JavaScript. -/
def JsNumber.ltOne : JsNumber → Bool
  | .nan => false
  | .val x => decide (x < 1)

/-- The JavaScript Number.isNaN test. -/
def JsNumber.isNaN : JsNumber → Bool
  | .nan => true
  | .val _ => false

/-- JavaScript template-literal string conversion of a number. Integral values
print as decimal integers, which covers every value the rule form's number
input and templates produce; NaN prints as "NaN". Non-integral rationals fall
back to the rational literal (JavaScript prints the shortest round-tripping
decimal; no claim depends on that case). -/
def JsNumber.toDisplay : JsNumber → String
  | .nan => "NaN"
  | .val x => if x.den = 1 then toString x.num else toString x

/-- The severity union type of RuleFormState in rules/page.tsx. -/
inductive Severity where
  | info : Severity
  | warning : Severity
  | critical : Severity
deriving DecidableEq

/-- Rendering of a severity value as the string it is in the source. -/
def Severity.toDisplay : Severity → String
  | .info => "info"
  | .warning => "warning"
  | .critical => "critical"

/-- RuleFormState from rules/page.tsx. -/
structure RuleFormState where
  ruleName : String
  ruleMetric : String
  ruleOperator : String
  ruleThreshold : String
  ruleSeverity : Severity
  ruleWindow : JsNumber
deriving DecidableEq

/-- RuleTemplate from rules/page.tsx. -/
structure RuleTemplate where
  id : String
  title : String
  description : String
  form : RuleFormState
deriving DecidableEq

/-- RULE_TEMPLATES from rules/page.tsx. -/
def RULE_TEMPLATES : List RuleTemplate :=
  [ { id := "cpu-spike-90-30s", title := "CPU spike",
      description := "CPU usage >= 90% for 30s or longer",
      form := { ruleName := "CPU > 90% (30s)", ruleMetric := "cpu",
                ruleOperator := ">=", ruleThreshold := "90",
                ruleSeverity := .warning, ruleWindow := .val 30 } },
    { id := "memory-high-90-300s", title := "Memory high",
      description := "Memory usage >= 90% for 5min or longer",
      form := { ruleName := "Memory > 90% (5m)", ruleMetric := "memory",
                ruleOperator := ">=", ruleThreshold := "90",
                ruleSeverity := .warning, ruleWindow := .val 300 } },
    { id := "disk-critical-95-60s", title := "Disk threshold",
      description := "Disk usage >= 95% for 60s or longer",
      form := { ruleName := "Disk > 95% (60s)", ruleMetric := "disk",
                ruleOperator := ">=", ruleThreshold := "95",
                ruleSeverity := .critical, ruleWindow := .val 60 } },
    { id := "network-disconnected", title := "Network disconnected",
      description := "Trigger when network status is disconnected",
      form := { ruleName := "Network disconnected", ruleMetric := "network",
                ruleOperator := "==", ruleThreshold := "disconnected",
                ruleSeverity := .critical, ruleWindow := .val 1 } },
    { id := "usb-removed", title := "USB device removed",
      description := "Trigger when critical USB device is removed",
      form := { ruleName := "USB removed", ruleMetric := "usb",
                ruleOperator := "==", ruleThreshold := "removed",
                ruleSeverity := .critical, ruleWindow := .val 1 } } ]

/-- INITIAL_FORM from rules/page.tsx. -/
def INITIAL_FORM : RuleFormState :=
  { ruleName := "", ruleMetric := "cpu", ruleOperator := ">=",
    ruleThreshold := "90", ruleSeverity := .warning, ruleWindow := .val 60 }

/-- The six option values of the operator select element in rules/page.tsx. -/
def operatorOptions : List String := [">=", ">", "<=", "<", "==", "!="]

/-- The six option values of the metric select element (METRIC_OPTIONS values). -/
def metricOptionValues : List String :=
  ["cpu", "memory", "disk", "process", "network", "usb"]

/-- Payload of agentApi.createGroupRule as built by handleCreateRule. -/
structure CreateRulePayload where
  name : String
  metric : String
  operator : String
  threshold : String
  severity : Severity
  window_seconds : JsNumber
deriving DecidableEq

/-- Outcome of one submission of the rule-creation form: either setError with
the given message and an early return, or the agentApi.createGroupRule call
with its group id and payload. -/
inductive CreateRuleResult where
  | error : String → CreateRuleResult
  | call : String → CreateRulePayload → CreateRuleResult
deriving DecidableEq

/-- handleCreateRule from rules/page.tsx, lines 217 to 259, as a pure function
of the component state it reads (selectedGroupId and form). The four guard
clauses and the payload of the createGroupRule call are transcribed in source
order; the falsiness test on the strings selectedGroupId, ruleName.trim() and
ruleThreshold.trim() is emptiness. -/
def handleCreateRule (selectedGroupId : String) (form : RuleFormState) :
    CreateRuleResult :=
  if selectedGroupId = "" then .error "Please select a group first."
  else if jsTrim form.ruleName = "" then .error "Please enter a rule name."
  else if jsTrim form.ruleThreshold = "" then
    .error "Please enter a threshold."
  else if form.ruleWindow.ltOne || form.ruleWindow.isNaN then
    .error "Window must be at least 1 second."
  else
    .call selectedGroupId
      { name := jsTrim form.ruleName, metric := form.ruleMetric,
        operator := form.ruleOperator, threshold := jsTrim form.ruleThreshold,
        severity := form.ruleSeverity, window_seconds := form.ruleWindow }

/-- previewText from rules/page.tsx, lines 152 to 162: the template literal
with the five form fields interpolated. -/
def previewText (form : RuleFormState) : String :=
  "Alert " ++ form.ruleSeverity.toDisplay ++ " when " ++ form.ruleMetric ++
    " " ++ form.ruleOperator ++ " " ++ form.ruleThreshold ++ " for " ++
    form.ruleWindow.toDisplay ++ "s or longer"

/-- Every user interaction of the rules page that writes the form state:
applying one of the five quick templates, editing one field through its
input/select element (select elements can only yield one of their option
values), and the ruleName reset performed after a successful createGroupRule
call. -/
inductive RuleFormEvent where
  | applyTemplate : Fin 5 → RuleFormEvent
  | setName : String → RuleFormEvent
  | setMetric : Fin 6 → RuleFormEvent
  | selectOperator : Fin 6 → RuleFormEvent
  | setThreshold : String → RuleFormEvent
  | setSeverity : Severity → RuleFormEvent
  | setWindow : JsNumber → RuleFormEvent
  | clearNameAfterCreate : RuleFormEvent

/-- Effect of one form event on the form state, transcribed from the setForm
calls in rules/page.tsx. -/
def ruleFormStep (s : RuleFormState) : RuleFormEvent → RuleFormState
  | .applyTemplate i => (RULE_TEMPLATES.get (Fin.cast (by rfl) i)).form
  | .setName v => { s with ruleName := v }
  | .setMetric i =>
      { s with ruleMetric := metricOptionValues.get (Fin.cast (by rfl) i) }
  | .selectOperator i =>
      { s with ruleOperator := operatorOptions.get (Fin.cast (by rfl) i) }
  | .setThreshold v => { s with ruleThreshold := v }
  | .setSeverity v => { s with ruleSeverity := v }
  | .setWindow v => { s with ruleWindow := v }
  | .clearNameAfterCreate => { s with ruleName := "" }

/-- Form state reached from INITIAL_FORM by a sequence of form events. -/
def runRuleForm (evs : List RuleFormEvent) : RuleFormState :=
  evs.foldl ruleFormStep INITIAL_FORM

/-- Whether an operator string is one of the four ordering operators named by
claim C2. -/
def isOrderingOp (op : String) : Bool :=
  op = ">" || op = ">=" || op = "<" || op = "<="

/-- Splitting of a character list at the occurrences of the dot character. -/
def splitOnDot : List Char → List (List Char)
  | [] => [[]]
  | c :: rest =>
    let r := splitOnDot rest
    if c = '.' then [] :: r
    else
      match r with
      | a :: tail => (c :: a) :: tail
      | [] => [[c]]

/-- Modelled from the spec: the side condition of claim C2 that a threshold
string "parses as a number" (a simple signed decimal numeral, as the
JavaScript Number conversion accepts). The source performs no such parse at
rule-creation time; this definition exists only to state the claim. -/
def specParsesAsNumber (s : String) : Bool :=
  let t := (jsTrim s).data
  let u :=
    match t with
    | c :: rest => if c = '-' || c = '+' then rest else t
    | [] => t
  match splitOnDot u with
  | [a] => a ≠ [] && a.all Char.isDigit
  | [a, b] => (a ++ b) ≠ [] && a.all Char.isDigit && b.all Char.isDigit
  | _ => false

/-- Concrete form submission used against claim C1: the window field is 0 but
the rule name is blank, so the blank-name guard fires first. -/
def cexWindowForm : RuleFormState :=
  { ruleName := "", ruleMetric := "cpu", ruleOperator := ">=",
    ruleThreshold := "90", ruleSeverity := .warning, ruleWindow := .val 0 }

/-- Concrete form submission with a valid name and an invalid window. -/
def lowWindowForm : RuleFormState :=
  { ruleName := "cpu high", ruleMetric := "cpu", ruleOperator := ">=",
    ruleThreshold := "90", ruleSeverity := .warning, ruleWindow := .val 0 }

/-- Concrete form submission with an ordering operator and a non-numeric
threshold that passes every guard of handleCreateRule. -/
def nonNumericThresholdForm : RuleFormState :=
  { ruleName := "proc check", ruleMetric := "process", ruleOperator := ">",
    ruleThreshold := "abc", ruleSeverity := .warning, ruleWindow := .val 60 }

/-- C1 counterexample: a submission whose window field is less than 1 (value
0) on which handleCreateRule sets the error message "Please enter a rule
name." rather than "Window must be at least 1 second.", because the blank-name
guard precedes the window guard. The claim's universally quantified error
message is therefore false as stated. -/
theorem C1_counterexample :
    cexWindowForm.ruleWindow.ltOne = true ∧
    handleCreateRule "g1" cexWindowForm = .error "Please enter a rule name." ∧
    handleCreateRule "g1" cexWindowForm ≠
      .error "Window must be at least 1 second." := by
  refine ⟨by decide, by decide, by decide⟩

/-- C1 (amended): whenever the window field is less than 1 or NaN,
handleCreateRule never calls createGroupRule, and it sets the error message
"Window must be at least 1 second." provided the earlier guards (group
selected, rule name non-blank, threshold non-blank) pass; moreover every
createGroupRule call made by the form carries window_seconds that is at least
1 and not NaN. -/
theorem C1_window_validation :
    (∀ (g : String) (f : RuleFormState),
        (f.ruleWindow.ltOne = true ∨ f.ruleWindow.isNaN = true) →
        (∀ gid p, handleCreateRule g f ≠ .call gid p) ∧
        (g ≠ "" → jsTrim f.ruleName ≠ "" → jsTrim f.ruleThreshold ≠ "" →
          handleCreateRule g f = .error "Window must be at least 1 second.")) ∧
    (∀ (g : String) (f : RuleFormState) (gid : String) (p : CreateRulePayload),
        handleCreateRule g f = .call gid p →
        p.window_seconds.ltOne = false ∧ p.window_seconds.isNaN = false) := by
  have hguard : ∀ f : RuleFormState,
      (f.ruleWindow.ltOne = true ∨ f.ruleWindow.isNaN = true) →
      (f.ruleWindow.ltOne || f.ruleWindow.isNaN) = true := by
    intro f h
    rcases h with h | h <;> simp [h]
  constructor
  · intro g f h
    constructor
    · intro gid p hc
      unfold handleCreateRule at hc
      split_ifs at hc with h1 h2 h3 h4
      exact h4 (hguard f h)
    · intro hg hn ht
      unfold handleCreateRule
      rw [if_neg hg, if_neg hn, if_neg ht, if_pos (hguard f h)]
  · intro g f gid p hc
    unfold handleCreateRule at hc
    split_ifs at hc with h1 h2 h3 h4
    injection hc with hgid hp
    subst hp
    simp only [Bool.or_eq_true, not_or, Bool.not_eq_true] at h4
    exact ⟨h4.1, h4.2⟩

/-- Witness for C1_window_validation at the concrete submission lowWindowForm
with group "g1". -/
theorem C1_window_validation_witness :
    handleCreateRule "g1" lowWindowForm =
      .error "Window must be at least 1 second." :=
  (C1_window_validation.1 "g1" lowWindowForm (Or.inl (by decide))).2
    (by decide) (by decide) (by decide)

/-- C2 counterexample: a submission whose operator is the ordering operator
">" and whose threshold "abc" does not parse as a number is not rejected;
handleCreateRule calls createGroupRule with that operator and threshold. -/
theorem C2_counterexample :
    isOrderingOp nonNumericThresholdForm.ruleOperator = true ∧
    specParsesAsNumber nonNumericThresholdForm.ruleThreshold = false ∧
    handleCreateRule "g1" nonNumericThresholdForm =
      .call "g1"
        { name := "proc check", metric := "process", operator := ">",
          threshold := "abc", severity := .warning,
          window_seconds := .val 60 } := by
  refine ⟨by decide, by decide, by decide⟩

/-- C2 (amended): handleCreateRule performs no numeric validation of the
threshold against the operator. Every submission that passes the group,
blank-name, blank-threshold and window guards calls createGroupRule with the
form's operator and threshold unchanged, whatever their combination; per the
spec's section 7, non-numeric thresholds under ordering operators are instead
detected at evaluation time. -/
theorem C2_no_threshold_type_check (g : String) (f : RuleFormState)
    (hg : g ≠ "") (hn : jsTrim f.ruleName ≠ "")
    (ht : jsTrim f.ruleThreshold ≠ "")
    (hw1 : f.ruleWindow.ltOne = false) (hw2 : f.ruleWindow.isNaN = false) :
    handleCreateRule g f =
      .call g { name := jsTrim f.ruleName, metric := f.ruleMetric,
                operator := f.ruleOperator,
                threshold := jsTrim f.ruleThreshold,
                severity := f.ruleSeverity,
                window_seconds := f.ruleWindow } := by
  unfold handleCreateRule
  rw [if_neg hg, if_neg hn, if_neg ht, if_neg (by simp [hw1, hw2])]

/-- Witness for C2_no_threshold_type_check at the concrete submission
nonNumericThresholdForm with group "g1". -/
theorem C2_no_threshold_type_check_witness :
    handleCreateRule "g1" nonNumericThresholdForm =
      .call "g1"
        { name := "proc check", metric := "process", operator := ">",
          threshold := "abc", severity := .warning,
          window_seconds := .val 60 } := by
  have h := C2_no_threshold_type_check "g1" nonNumericThresholdForm
    (by decide) (by decide) (by decide) (by decide) (by decide)
  exact h.trans (by decide)

/-- Membership of the operator field in the six select option values is
preserved by every single form event of the rules page. -/
theorem ruleOperator_mem_step (s : RuleFormState) (e : RuleFormEvent)
    (h : s.ruleOperator ∈ operatorOptions) :
    (ruleFormStep s e).ruleOperator ∈ operatorOptions := by
  cases e with
  | applyTemplate i => simp only [ruleFormStep]; revert i; decide
  | setName v => exact h
  | setMetric i => exact h
  | selectOperator i => simp only [ruleFormStep]; revert i; decide
  | setThreshold v => exact h
  | setSeverity v => exact h
  | setWindow v => exact h
  | clearNameAfterCreate => exact h

/-- Operator membership is an invariant of any event sequence started from a
state that satisfies it. -/
theorem ruleOperator_mem_foldl (evs : List RuleFormEvent) :
    ∀ s : RuleFormState, s.ruleOperator ∈ operatorOptions →
      (evs.foldl ruleFormStep s).ruleOperator ∈ operatorOptions := by
  induction evs with
  | nil => intro s h; exact h
  | cons e rest ih => intro s h; exact ih _ (ruleOperator_mem_step s e h)

/-- C5: the rule preview message is a deterministic function of the five rule
fields; two form states agreeing on ruleSeverity, ruleMetric, ruleOperator,
ruleThreshold and ruleWindow yield the identical preview string, which is the
fixed template with those fields substituted verbatim. -/
theorem C5_preview_deterministic (f g : RuleFormState)
    (h1 : f.ruleSeverity = g.ruleSeverity) (h2 : f.ruleMetric = g.ruleMetric)
    (h3 : f.ruleOperator = g.ruleOperator)
    (h4 : f.ruleThreshold = g.ruleThreshold)
    (h5 : f.ruleWindow = g.ruleWindow) :
    previewText f = previewText g ∧
    previewText f =
      "Alert " ++ f.ruleSeverity.toDisplay ++ " when " ++ f.ruleMetric ++
        " " ++ f.ruleOperator ++ " " ++ f.ruleThreshold ++ " for " ++
        f.ruleWindow.toDisplay ++ "s or longer" := by
  refine ⟨?_, rfl⟩
  unfold previewText
  rw [h1, h2, h3, h4, h5]

/-- Witness for C5_preview_deterministic at two concrete form states that
differ only in their ruleName field. -/
theorem C5_preview_deterministic_witness :
    previewText
        { ruleName := "a", ruleMetric := "cpu", ruleOperator := ">=",
          ruleThreshold := "90", ruleSeverity := .warning,
          ruleWindow := .val 30 } =
      previewText
        { ruleName := "b", ruleMetric := "cpu", ruleOperator := ">=",
          ruleThreshold := "90", ruleSeverity := .warning,
          ruleWindow := .val 30 } :=
  (C5_preview_deterministic
      { ruleName := "a", ruleMetric := "cpu", ruleOperator := ">=",
        ruleThreshold := "90", ruleSeverity := .warning,
        ruleWindow := .val 30 }
      { ruleName := "b", ruleMetric := "cpu", ruleOperator := ">=",
        ruleThreshold := "90", ruleSeverity := .warning,
        ruleWindow := .val 30 }
      rfl rfl rfl rfl rfl).1

/-- C6: in every form state reachable from INITIAL_FORM by any sequence of
template applications and field edits, the operator field is one of the six
select option values, and every createGroupRule call made from such a state
carries an operator from that set. -/
theorem C6_operator_invariant (evs : List RuleFormEvent) :
    (runRuleForm evs).ruleOperator ∈ operatorOptions ∧
    ∀ (g gid : String) (p : CreateRulePayload),
      handleCreateRule g (runRuleForm evs) = .call gid p →
      p.operator ∈ operatorOptions := by
  have hmem : (runRuleForm evs).ruleOperator ∈ operatorOptions :=
    ruleOperator_mem_foldl evs INITIAL_FORM (by decide)
  refine ⟨hmem, ?_⟩
  intro g gid p hc
  unfold handleCreateRule at hc
  split_ifs at hc
  injection hc with hgid hp
  subst hp
  exact hmem

/-- Witness for C6_operator_invariant: after the single event of typing a rule
name into the initial form, the submitted payload's operator is in the option
set. -/
theorem C6_operator_invariant_witness :
    ({ name := "x", metric := "cpu", operator := ">=", threshold := "90",
       severity := Severity.warning,
       window_seconds := JsNumber.val 60 } : CreateRulePayload).operator ∈
      operatorOptions :=
  (C6_operator_invariant [RuleFormEvent.setName "x"]).2 "g1" "g1" _ (by decide)

/-- JSON values as JSON.parse can return them. -/
inductive Json where
  | null : Json
  | bool : Bool → Json
  | num : ℚ → Json
  | str : String → Json
  | arr : List Json → Json
  | obj : List (String × Json) → Json

/-- Test whether a JSON value is a string. -/
def Json.isStr : Json → Bool
  | .str _ => true
  | _ => false

/-- The string carried by a JSON string value (defaulting to the empty string
elsewhere; only applied under an isStr guard). -/
def Json.strVal : Json → String
  | .str s => s
  | _ => ""

/-- The Object.entries loop of parseHeadersJson: copy the entries in order
into the result record, throwing at the first value that is not a string. -/
def collectHeaderEntries :
    List (String × Json) → Except String (List (String × String))
  | [] => .ok []
  | (k, v) :: rest =>
    match v with
    | .str s => (collectHeaderEntries rest).map (fun m => (k, s) :: m)
    | _ => .error ("Header \"" ++ k ++ "\" value must be a string.")

/-- parseHeadersJson from alerts/page.tsx, lines 60 to 78. JSON.parse is
passed in as a function parameter (a thrown SyntaxError is the Except error
with its message); the typeof-object, null and Array.isArray guard admits
exactly JSON objects, everything else throws "Headers must be a JSON
object.". -/
def parseHeadersJson (jsonParse : String → Except String Json)
    (value : String) : Except String (List (String × String)) :=
  if jsTrim value = "" then .ok []
  else
    match jsonParse value with
    | .error e => .error e
    | .ok (.obj fields) => collectHeaderEntries fields
    | .ok _ => .error "Headers must be a JSON object."

/-- Channel type union of alerts/page.tsx. -/
inductive ChannelType where
  | email : ChannelType
  | webhook : ChannelType
deriving DecidableEq

/-- WebhookMethod union of alerts/page.tsx. -/
inductive WebhookMethod where
  | GET : WebhookMethod
  | POST : WebhookMethod
  | PUT : WebhookMethod
  | PATCH : WebhookMethod
  | DELETE : WebhookMethod
deriving DecidableEq

/-- Payload of agentApi.createGroupAlertChannel as built by
handleCreateChannel; the three webhook fields are undefined for email
channels. -/
structure CreateChannelPayload where
  type : ChannelType
  target : String
  webhook_method : Option WebhookMethod
  webhook_headers : Option (List (String × String))
  webhook_body : Option String
deriving DecidableEq

/-- Outcome of one submission of the add-channel form: either setError with
the given message and an early return, or the createGroupAlertChannel call
with its group id and payload. -/
inductive CreateChannelResult where
  | error : String → CreateChannelResult
  | call : String → CreateChannelPayload → CreateChannelResult
deriving DecidableEq

/-- handleCreateChannel from alerts/page.tsx, lines 142 to 189, as a pure
function of the component state it reads. For webhook channels the headers
textarea is parsed first; a thrown error becomes the error message (both
throw sites raise Error instances, so the instanceof fallback never fires). -/
def handleCreateChannel (jsonParse : String → Except String Json)
    (selectedGroupId target : String) (channelType : ChannelType)
    (webhookMethod : WebhookMethod) (webhookHeaders webhookBody : String) :
    CreateChannelResult :=
  if selectedGroupId = "" then .error "Please select a group first."
  else if jsTrim target = "" then .error "Please enter email or webhook URL."
  else
    match channelType with
    | .email =>
        .call selectedGroupId
          { type := .email, target := jsTrim target, webhook_method := none,
            webhook_headers := none, webhook_body := none }
    | .webhook =>
        match parseHeadersJson jsonParse webhookHeaders with
        | .error msg => .error msg
        | .ok hdrs =>
            .call selectedGroupId
              { type := .webhook, target := jsTrim target,
                webhook_method := some webhookMethod,
                webhook_headers := some hdrs,
                webhook_body := some webhookBody }

/-- All-string collect succeeds with the entries copied in order. -/
theorem collectHeaderEntries_ok (fields : List (String × Json))
    (h : fields.all (fun kv => kv.2.isStr) = true) :
    collectHeaderEntries fields =
      .ok (fields.map (fun kv => (kv.1, kv.2.strVal))) := by
  induction fields with
  | nil => rfl
  | cons kv rest ih =>
    obtain ⟨k, v⟩ := kv
    simp only [List.all_cons, Bool.and_eq_true] at h
    cases v with
    | str s =>
        simp only [collectHeaderEntries, ih h.2, Except.map, List.map_cons]
        rfl
    | null => exact absurd h.1 (by simp [Json.isStr])
    | bool b => exact absurd h.1 (by simp [Json.isStr])
    | num q => exact absurd h.1 (by simp [Json.isStr])
    | arr xs => exact absurd h.1 (by simp [Json.isStr])
    | obj fs => exact absurd h.1 (by simp [Json.isStr])

/-- A non-string entry makes the collect throw. -/
theorem collectHeaderEntries_error (fields : List (String × Json))
    (h : fields.all (fun kv => kv.2.isStr) = false) :
    ∃ msg, collectHeaderEntries fields = .error msg := by
  induction fields with
  | nil => simp at h
  | cons kv rest ih =>
    obtain ⟨k, v⟩ := kv
    simp only [List.all_cons, Bool.and_eq_false_iff] at h
    cases v with
    | str s =>
        rcases h with h | h
        · exact absurd h (by simp [Json.isStr])
        · obtain ⟨msg, hmsg⟩ := ih h
          refine ⟨msg, ?_⟩
          simp [collectHeaderEntries, hmsg, Except.map]
    | null => exact ⟨_, rfl⟩
    | bool b => exact ⟨_, rfl⟩
    | num q => exact ⟨_, rfl⟩
    | arr xs => exact ⟨_, rfl⟩
    | obj fs => exact ⟨_, rfl⟩

/-- C3: parseHeadersJson returns the empty map on blank input, returns the
string-to-string map of entries when the input parses as a JSON object all of
whose values are strings, and throws in every other case (parse failure,
non-object, array, null, or any non-string value); and handleCreateChannel
for a webhook channel calls createGroupAlertChannel only with headers on
which parseHeadersJson succeeded, while a parse failure always yields an
error and no call. -/
theorem C3_parse_headers (jsonParse : String → Except String Json)
    (value : String) :
    (jsTrim value = "" → parseHeadersJson jsonParse value = .ok []) ∧
    (∀ fields, jsTrim value ≠ "" → jsonParse value = .ok (.obj fields) →
        fields.all (fun kv => kv.2.isStr) = true →
        parseHeadersJson jsonParse value =
          .ok (fields.map (fun kv => (kv.1, kv.2.strVal)))) ∧
    (jsTrim value ≠ "" →
        (∀ fields, jsonParse value = .ok (.obj fields) →
            fields.all (fun kv => kv.2.isStr) = false) →
        ∃ msg, parseHeadersJson jsonParse value = .error msg) ∧
    (∀ (g t body : String) (m : WebhookMethod),
        (∀ gid p,
            handleCreateChannel jsonParse g t .webhook m value body =
              .call gid p →
            ∃ hs, parseHeadersJson jsonParse value = .ok hs ∧
              p.webhook_headers = some hs) ∧
        (∀ e, parseHeadersJson jsonParse value = .error e →
            ∀ gid p,
              handleCreateChannel jsonParse g t .webhook m value body ≠
                .call gid p)) := by
  refine ⟨?_, ?_, ?_, ?_⟩
  · intro h
    simp [parseHeadersJson, h]
  · intro fields hb hp hall
    simp [parseHeadersJson, hb, hp, collectHeaderEntries_ok fields hall]
  · intro hb hfields
    unfold parseHeadersJson
    rw [if_neg hb]
    cases hp : jsonParse value with
    | error e => exact ⟨e, rfl⟩
    | ok j =>
      cases j with
      | obj fields => exact collectHeaderEntries_error fields (hfields fields hp)
      | null => exact ⟨_, rfl⟩
      | bool b => exact ⟨_, rfl⟩
      | num q => exact ⟨_, rfl⟩
      | str s => exact ⟨_, rfl⟩
      | arr xs => exact ⟨_, rfl⟩
  · intro g t body m
    constructor
    · intro gid p hc
      unfold handleCreateChannel at hc
      split_ifs at hc
      cases hh : parseHeadersJson jsonParse value with
      | error e => rw [hh] at hc; exact absurd hc (by simp)
      | ok hs =>
        rw [hh] at hc
        simp only [CreateChannelResult.call.injEq] at hc
        exact ⟨hs, rfl, by rw [← hc.2]⟩
    · intro e he gid p hc
      unfold handleCreateChannel at hc
      split_ifs at hc
      rw [he] at hc
      exact absurd hc (by simp)

/-- Witness for C3_parse_headers: a concrete JSON.parse yielding the object
with the single string entry Authorization to "Bearer t", on the non-blank
headers text "j". -/
theorem C3_parse_headers_witness :
    parseHeadersJson
        (fun _ => Except.ok (Json.obj [("Authorization", Json.str "Bearer t")]))
        "j" =
      Except.ok [("Authorization", "Bearer t")] := by
  have h := (C3_parse_headers
      (fun _ => Except.ok (Json.obj [("Authorization", Json.str "Bearer t")]))
      "j").2.1 [("Authorization", Json.str "Bearer t")]
      (by decide) rfl (by simp [Json.isStr])
  simpa [Json.strVal] using h

/-- HTTP request as apiFetch hands it to fetch: the path-plus-query URL
(relative to the constant API_BASE prefix), the effective method (fetch
defaults to GET when the options carry none) and whether a request body is
attached. -/
structure ApiRequest where
  url : String
  method : String
  hasBody : Bool
deriving DecidableEq

/-- RequestInit fields of interest that the agentApi wrappers pass to
apiFetch. -/
structure ApiRequestInit where
  method : Option String
  body : Option String
deriving DecidableEq

/-- The empty options object of the read-only wrappers. -/
def emptyInit : ApiRequestInit := { method := none, body := none }

/-- Request construction of apiFetch (api.ts lines 58 to 76): the path is
appended to API_BASE (prefix omitted here as a constant) and the options are
forwarded to fetch unchanged; without a method fetch issues GET, and a body
is sent only when the options carry one. -/
def apiFetchRequest (path : String) (options : ApiRequestInit) : ApiRequest :=
  { url := path, method := options.method.getD "GET",
    hasBody := options.body.isSome }

/-- JavaScript truthiness of an optional numeric query parameter as tested by
the builders with if-parameter guards: present and non-zero. The numeric
limit and offset parameters are modelled as naturals. -/
def truthyNum : Option Nat → Bool
  | none => false
  | some n => decide (n ≠ 0)

/-- The qs.set call guarded by the truthiness of a numeric parameter: one
key-value pair when set, none otherwise. -/
def numParam (name : String) (v : Option Nat) : List (String × String) :=
  match v with
  | some n => if n ≠ 0 then [(name, Nat.repr n)] else []
  | none => []

/-- The qs.set call guarded by the truthiness of a string parameter. -/
def strParam (name : String) (v : Option String) : List (String × String) :=
  match v with
  | some s => if s ≠ "" then [(name, s)] else []
  | none => []

/-- The query construction: qs.toString() is empty exactly when no pair was
set, and the question mark is prepended only to a non-empty query. The
parameter names and values the dashboard passes need no percent-encoding. -/
def buildQuery (pairs : List (String × String)) : String :=
  match pairs with
  | [] => ""
  | _ => "?" ++ String.intercalate "&" (pairs.map (fun p => p.1 ++ "=" ++ p.2))

/-- Query pairs of agentApi.list (api.ts lines 357 to 370), in qs.set order. -/
def agentListPairs (status group_id : Option String)
    (limit offset : Option Nat) : List (String × String) :=
  strParam "status" status ++ strParam "group_id" group_id ++
    numParam "limit" limit ++ numParam "offset" offset

/-- agentApi.list request. -/
def agentList (status group_id : Option String) (limit offset : Option Nat) :
    ApiRequest :=
  apiFetchRequest
    ("/agents" ++ buildQuery (agentListPairs status group_id limit offset))
    emptyInit

/-- Query pairs of agentApi.getEvents (api.ts lines 391 to 397). -/
def agentGetEventsPairs (ty : Option String) (limit : Option Nat) :
    List (String × String) :=
  strParam "type" ty ++ numParam "limit" limit

/-- agentApi.getEvents request. -/
def agentGetEvents (id : String) (ty : Option String) (limit : Option Nat) :
    ApiRequest :=
  apiFetchRequest
    ("/agents/" ++ id ++ "/events" ++ buildQuery (agentGetEventsPairs ty limit))
    emptyInit

/-- Query pairs of agentApi.getCommands (api.ts lines 415 to 423). -/
def agentGetCommandsPairs (status : Option String) (limit : Option Nat) :
    List (String × String) :=
  strParam "status" status ++ numParam "limit" limit

/-- agentApi.getCommands request. -/
def agentGetCommands (id : String) (status : Option String)
    (limit : Option Nat) : ApiRequest :=
  apiFetchRequest
    ("/agents/" ++ id ++ "/commands" ++
      buildQuery (agentGetCommandsPairs status limit))
    emptyInit

/-- agentApi.listGroupAlerts request (api.ts lines 580 to 591). -/
def listGroupAlertsRequest (groupId : String) (limit offset : Option Nat) :
    ApiRequest :=
  apiFetchRequest
    ("/agents/groups/" ++ groupId ++ "/alerts" ++
      buildQuery (numParam "limit" limit ++ numParam "offset" offset))
    emptyInit

/-- AgentAlertOccurrence from api.ts (anomaly_data carries opaque JSON the
dashboard never reads; it is omitted). The created_at field is a unix-seconds
timestamp. -/
structure AlertOccurrence where
  id : String
  account_id : String
  group_id : String
  agent_id : String
  rule_id : String
  severity : Severity
  metric : String
  message : String
  anomaly_type : String
  created_at : Nat
  agent_display_name : Option String
  agent_thing_name : Option String
  rule_name : Option String
deriving DecidableEq

/-- Parsed body of a listGroupAlerts response. -/
structure ListAlertsResponse where
  alerts : List AlertOccurrence
  total : Nat

/-- The value a listGroupAlerts caller receives: apiFetch resolves to the
parsed response object, whose alerts and total fields are passed through
unchanged. -/
def listGroupAlertsResult (resp : ListAlertsResponse) :
    List AlertOccurrence × Nat :=
  (resp.alerts, resp.total)

/-- Key membership for a numeric query parameter. -/
theorem mem_keys_numParam (name key : String) (v : Option Nat) :
    key ∈ (numParam name v).map Prod.fst ↔
      key = name ∧ truthyNum v = true := by
  cases v with
  | none => simp [numParam, truthyNum]
  | some n =>
    by_cases h : n = 0
    · subst h; simp [numParam, truthyNum]
    · simp [numParam, truthyNum, h]

/-- Key membership for a string query parameter. -/
theorem mem_keys_strParam (name key : String) (v : Option String) :
    key ∈ (strParam name v).map Prod.fst ↔
      key = name ∧ ∃ s, v = some s ∧ s ≠ "" := by
  cases v with
  | none => simp [strParam]
  | some s =>
    by_cases h : s = ""
    · subst h; simp [strParam]
    · simp [strParam, h, and_comm]

/-- C4: listGroupAlerts issues a GET request with no body to
/agents/groups/{group_id}/alerts; the limit and offset pairs are appended to
the query string exactly when the parameter is provided and non-zero (with
their given values), the URL is the bare path when both are falsy, and the
caller receives the alerts array and total of the response unchanged. -/
theorem C4_listGroupAlerts_readonly (gid : String)
    (limit offset : Option Nat) :
    (listGroupAlertsRequest gid limit offset).method = "GET" ∧
    (listGroupAlertsRequest gid limit offset).hasBody = false ∧
    (listGroupAlertsRequest gid limit offset).url =
      "/agents/groups/" ++ gid ++ "/alerts" ++
        buildQuery (numParam "limit" limit ++ numParam "offset" offset) ∧
    ("limit" ∈
        (numParam "limit" limit ++ numParam "offset" offset).map Prod.fst ↔
      truthyNum limit = true) ∧
    ("offset" ∈
        (numParam "limit" limit ++ numParam "offset" offset).map Prod.fst ↔
      truthyNum offset = true) ∧
    (∀ n, limit = some n → n ≠ 0 →
        ("limit", Nat.repr n) ∈
          numParam "limit" limit ++ numParam "offset" offset) ∧
    (∀ m, offset = some m → m ≠ 0 →
        ("offset", Nat.repr m) ∈
          numParam "limit" limit ++ numParam "offset" offset) ∧
    (truthyNum limit = false → truthyNum offset = false →
        (listGroupAlertsRequest gid limit offset).url =
          "/agents/groups/" ++ gid ++ "/alerts") ∧
    (∀ resp : ListAlertsResponse,
        listGroupAlertsResult resp = (resp.alerts, resp.total)) := by
  refine ⟨rfl, rfl, rfl, ?_, ?_, ?_, ?_, ?_, fun _ => rfl⟩
  · rw [List.map_append, List.mem_append, mem_keys_numParam,
      mem_keys_numParam]
    simp
  · rw [List.map_append, List.mem_append, mem_keys_numParam,
      mem_keys_numParam]
    simp
  · intro n hn hnz
    subst hn
    simp [numParam, hnz]
  · intro m hm hmz
    subst hm
    simp [numParam, hmz]
  · intro hl ho
    have hl2 : numParam "limit" limit = [] := by
      cases limit with
      | none => rfl
      | some n =>
        simp only [truthyNum, decide_eq_false_iff_not, not_not] at hl
        simp [numParam, hl]
    have ho2 : numParam "offset" offset = [] := by
      cases offset with
      | none => rfl
      | some m =>
        simp only [truthyNum, decide_eq_false_iff_not, not_not] at ho
        simp [numParam, ho]
    simp [listGroupAlertsRequest, apiFetchRequest, hl2, ho2, buildQuery]

/-- Witness for C4_listGroupAlerts_readonly at group "g1" with limit 50 and
no offset; the resulting concrete URL is also computed. -/
theorem C4_listGroupAlerts_readonly_witness :
    ("limit", Nat.repr 50) ∈
        numParam "limit" (some 50) ++ numParam "offset" (none : Option Nat) ∧
    (listGroupAlertsRequest "g1" (some 50) none).url =
      "/agents/groups/g1/alerts?limit=50" :=
  ⟨(C4_listGroupAlerts_readonly "g1" (some 50) none).2.2.2.2.2.1 50 rfl
      (by decide),
    by decide⟩

/-- String append acts as append on the underlying character lists. -/
theorem string_data_append (a b : String) : (a ++ b).data = a.data ++ b.data :=
  rfl

/-- Strings with equal character lists are equal. -/
theorem string_eq_of_data {a b : String} (h : a.data = b.data) : a = b := by
  cases a
  cases b
  exact congrArg String.mk h

/-- Appending the empty string is the identity. -/
theorem string_append_nil (a : String) : a ++ "" = a :=
  string_eq_of_data (by rw [string_data_append]; exact List.append_nil _)

/-- C9: in every list-style request builder (agentApi.list, getEvents,
getCommands, listGroupAlerts) a limit or offset parameter that is absent or 0
is omitted from the query string (the key appears exactly when the parameter
is truthy), and with no parameters set the URL is the bare path with no
question mark. -/
theorem C9_falsy_params_omitted :
    (∀ (status group_id : Option String) (limit offset : Option Nat),
        ("limit" ∈ (agentListPairs status group_id limit offset).map Prod.fst ↔
            truthyNum limit = true) ∧
        ("offset" ∈
            (agentListPairs status group_id limit offset).map Prod.fst ↔
          truthyNum offset = true)) ∧
    (∀ (ty : Option String) (limit : Option Nat),
        "limit" ∈ (agentGetEventsPairs ty limit).map Prod.fst ↔
          truthyNum limit = true) ∧
    (∀ (status : Option String) (limit : Option Nat),
        "limit" ∈ (agentGetCommandsPairs status limit).map Prod.fst ↔
          truthyNum limit = true) ∧
    (∀ (limit offset : Option Nat),
        ("limit" ∈
            (numParam "limit" limit ++ numParam "offset" offset).map Prod.fst ↔
          truthyNum limit = true) ∧
        ("offset" ∈
            (numParam "limit" limit ++ numParam "offset" offset).map Prod.fst ↔
          truthyNum offset = true)) ∧
    ((agentList none none none none).url = "/agents" ∧
      ('?' ∈ (agentList none none none none).url.data → False)) ∧
    (∀ id : String,
        (agentGetEvents id none none).url = "/agents/" ++ id ++ "/events" ∧
        (agentGetCommands id none none).url =
          "/agents/" ++ id ++ "/commands" ∧
        (listGroupAlertsRequest id none none).url =
          "/agents/groups/" ++ id ++ "/alerts" ∧
        (('?' ∈ id.data → False) →
          ('?' ∈ (agentGetEvents id none none).url.data → False))) := by
  refine ⟨?_, ?_, ?_, ?_, ⟨by decide, by decide⟩, ?_⟩
  · intro status group_id limit offset
    constructor
    · simp only [agentListPairs, List.map_append, List.mem_append,
        mem_keys_strParam, mem_keys_numParam]
      simp
    · simp only [agentListPairs, List.map_append, List.mem_append,
        mem_keys_strParam, mem_keys_numParam]
      simp
  · intro ty limit
    simp only [agentGetEventsPairs, List.map_append, List.mem_append,
      mem_keys_strParam, mem_keys_numParam]
    simp
  · intro status limit
    simp only [agentGetCommandsPairs, List.map_append, List.mem_append,
      mem_keys_strParam, mem_keys_numParam]
    simp
  · intro limit offset
    constructor
    · simp only [List.map_append, List.mem_append, mem_keys_numParam]
      simp
    · simp only [List.map_append, List.mem_append, mem_keys_numParam]
      simp
  · intro id
    refine ⟨string_append_nil _, string_append_nil _, string_append_nil _, ?_⟩
    intro hid hq
    have hq2 : ('?' : Char) ∈ (("/agents/" ++ id ++ "/events") ++ "").data := hq
    rw [string_append_nil, string_data_append, string_data_append] at hq2
    rcases List.mem_append.mp hq2 with hq | hq
    · rcases List.mem_append.mp hq with hq | hq
      · exact absurd hq (by decide)
      · exact hid hq
    · exact absurd hq (by decide)

/-- Witness for C9_falsy_params_omitted: limit 0 is omitted from the
agentApi.list query keys. -/
theorem C9_falsy_params_omitted_witness :
    ("limit" ∈
        (agentListPairs none none (some 0) none).map Prod.fst ↔
      truthyNum (some 0) = true) :=
  (C9_falsy_params_omitted.1 none none (some 0) none).1

/-- Parsed error field of an HTTP response body: the data.error string when
the body is a JSON object carrying one (the res.json() failure and a missing
field both leave it absent, making the fallback fire; the TypeScript source
annotates the field as string via its cast). -/
structure HttpResponse where
  status : Nat
  errorField : Option String
deriving DecidableEq

/-- Response.ok of the fetch API: status between 200 and 299. -/
def HttpResponse.ok (r : HttpResponse) : Bool :=
  decide (200 ≤ r.status) && decide (r.status ≤ 299)

/-- Environment of one apiFetch execution: the first response, the outcome of
tryRefresh, and the response of the retried request after a successful
refresh. -/
structure FetchEnv where
  first : HttpResponse
  refreshOk : Bool
  retry : HttpResponse
deriving DecidableEq

/-- Outcome of apiFetch: resolve with the parsed body of a successful
response, or throw an ApiError carrying a status and a message. -/
inductive ApiOutcome where
  | success : HttpResponse → ApiOutcome
  | apiError : Nat → String → ApiOutcome
deriving DecidableEq

/-- The JavaScript expression (value as string) || fallback over an optional
string: the fallback fires when the field is absent or empty. -/
def jsStringOr (v : Option String) (fallback : String) : String :=
  match v with
  | some s => if s = "" then fallback else s
  | none => fallback

/-- Control flow of apiFetch (api.ts lines 58 to 118) over a fetch
environment: a 401 first response with a token at hand refreshes and retries
once (a failed retry throws with the "Request failed" fallback, a failed
refresh throws "Session expired" with status 401); every other non-ok
response throws with the "HTTP status" fallback. -/
def apiFetch (hasToken : Bool) (env : FetchEnv) : ApiOutcome :=
  if env.first.status = 401 && hasToken then
    if env.refreshOk then
      if env.retry.ok = false then
        .apiError env.retry.status
          (jsStringOr env.retry.errorField "Request failed")
      else .success env.retry
    else .apiError 401 "Session expired"
  else if env.first.ok = false then
    .apiError env.first.status
      (jsStringOr env.first.errorField ("HTTP " ++ Nat.repr env.first.status))
  else .success env.first

/-- Fetch environment of the C8 counterexample: first response 401 with a
token present, refresh succeeds, and the retried request fails with 500 and a
body without an error field. -/
def retryFailEnv : FetchEnv :=
  { first := { status := 401, errorField := none }, refreshOk := true,
    retry := { status := 500, errorField := none } }

/-- C8 counterexample: on the 401-refresh-retry path with a failed retry whose
body has no error field, apiFetch throws ApiError 500 with message "Request
failed", not the claimed "HTTP 500" (and not "Session expired"). -/
theorem C8_counterexample :
    retryFailEnv.first.ok = false ∧
    retryFailEnv.retry.ok = false ∧
    apiFetch true retryFailEnv = .apiError 500 "Request failed" ∧
    apiFetch true retryFailEnv ≠ .apiError 500 "HTTP 500" ∧
    apiFetch true retryFailEnv ≠ .apiError 401 "Session expired" := by
  refine ⟨by decide, by decide, by decide, by decide, by decide⟩

/-- C8 (amended): whenever the response is not ok and the 401 retry path does
not succeed, apiFetch never resolves; it throws an ApiError whose status is
the failing response's HTTP status and whose message is the body's error
field when present and non-empty, with fallback "HTTP status" on the direct
failure path, "Request failed" on a failed retry after a successful refresh,
and "Session expired" with status 401 when the refresh fails. -/
theorem C8_apiFetch_failure (hasToken : Bool) (env : FetchEnv) :
    (env.first.ok = false →
        (env.first.status = 401 ∧ hasToken = true ∧ env.refreshOk = true ∧
            env.retry.ok = true → False) →
        ∀ r, apiFetch hasToken env ≠ .success r) ∧
    (env.first.status = 401 → hasToken = true → env.refreshOk = true →
        env.retry.ok = false →
        apiFetch hasToken env =
          .apiError env.retry.status
            (jsStringOr env.retry.errorField "Request failed")) ∧
    (env.first.status = 401 → hasToken = true → env.refreshOk = false →
        apiFetch hasToken env = .apiError 401 "Session expired") ∧
    ((env.first.status = 401 ∧ hasToken = true → False) →
        env.first.ok = false →
        apiFetch hasToken env =
          .apiError env.first.status
            (jsStringOr env.first.errorField
              ("HTTP " ++ Nat.repr env.first.status))) := by
  refine ⟨?_, ?_, ?_, ?_⟩
  · intro hnotok hnotretry r
    unfold apiFetch
    by_cases h401 : (env.first.status = 401 && hasToken) = true
    · rw [if_pos h401]
      simp only [Bool.and_eq_true, decide_eq_true_eq] at h401
      cases hrefresh : env.refreshOk
      · simp
      · rw [if_pos rfl]
        cases hretry : env.retry.ok
        · simp
        · exact absurd ⟨h401.1, h401.2, hrefresh, hretry⟩ hnotretry
    · rw [if_neg h401, if_pos hnotok]
      simp
  · intro h401 htok hrefresh hretry
    unfold apiFetch
    rw [if_pos (by simp [h401, htok]), if_pos hrefresh, if_pos hretry]
  · intro h401 htok hrefresh
    unfold apiFetch
    rw [if_pos (by simp [h401, htok]), if_neg (by simp [hrefresh])]
  · intro hnot hnotok
    unfold apiFetch
    rw [if_neg (by
        simp only [Bool.and_eq_true, decide_eq_true_eq]
        intro hc
        exact hnot hc),
      if_pos hnotok]

/-- Witness for C8_apiFetch_failure: a plain 500 response without a token and
without an error field throws ApiError 500 "HTTP 500". -/
theorem C8_apiFetch_failure_witness :
    apiFetch false
        { first := { status := 500, errorField := none }, refreshOk := false,
          retry := { status := 200, errorField := none } } =
      .apiError 500 "HTTP 500" := by
  have h := (C8_apiFetch_failure false
      { first := { status := 500, errorField := none }, refreshOk := false,
        retry := { status := 200, errorField := none } }).2.2.2
    (by intro hc; exact absurd hc.2 (by decide)) (by decide)
  exact h.trans (by decide)

/-- Two strings with differing suffixes of equal length are different,
whatever precedes them. -/
theorem append_suffix_ne (a b s t : String)
    (hlen : s.data.length = t.data.length) (hne : s ≠ t) :
    a ++ s ≠ b ++ t := by
  intro he
  apply hne
  have hd : a.data ++ s.data = b.data ++ t.data := by
    rw [← string_data_append, ← string_data_append, he]
  exact string_eq_of_data (List.append_inj' hd hlen).2

/-- formatTimeAgo from the dashboard overview (src/unnamed/part_000, lines
110 to 117): diff is now minus timestamp, where now is the ambient clock
value Math.floor(Date.now()/1000) taken as a parameter; Math.floor of the
quotients is integer floor division. -/
def formatTimeAgo (now timestamp : Int) : String :=
  if now - timestamp < 60 then "Just now"
  else if now - timestamp < 3600 then
    toString (Int.fdiv (now - timestamp) 60) ++ "m ago"
  else if now - timestamp < 86400 then
    toString (Int.fdiv (now - timestamp) 3600) ++ "h ago"
  else toString (Int.fdiv (now - timestamp) 86400) ++ "d ago"

/-- C10: formatTimeAgo returns "Just now" exactly when diff is below 60,
the minutes form exactly when diff is in [60, 3600), the hours form exactly
when diff is in [3600, 86400), and the days form when diff is at least
86400, with diff = now - timestamp. -/
theorem C10_formatTimeAgo (now timestamp : Int) :
    (formatTimeAgo now timestamp = "Just now" ↔ now - timestamp < 60) ∧
    (formatTimeAgo now timestamp =
        toString (Int.fdiv (now - timestamp) 60) ++ "m ago" ↔
      60 ≤ now - timestamp ∧ now - timestamp < 3600) ∧
    (formatTimeAgo now timestamp =
        toString (Int.fdiv (now - timestamp) 3600) ++ "h ago" ↔
      3600 ≤ now - timestamp ∧ now - timestamp < 86400) ∧
    (86400 ≤ now - timestamp →
      formatTimeAgo now timestamp =
        toString (Int.fdiv (now - timestamp) 86400) ++ "d ago") := by
  have hJm : ∀ x : String, "Just now" ≠ x ++ "m ago" := fun x =>
    append_suffix_ne "Jus" x "t now" "m ago" (by decide) (by decide)
  have hJh : ∀ x : String, "Just now" ≠ x ++ "h ago" := fun x =>
    append_suffix_ne "Jus" x "t now" "h ago" (by decide) (by decide)
  have hJd : ∀ x : String, "Just now" ≠ x ++ "d ago" := fun x =>
    append_suffix_ne "Jus" x "t now" "d ago" (by decide) (by decide)
  have hmh : ∀ x y : String, x ++ "m ago" ≠ y ++ "h ago" := fun x y =>
    append_suffix_ne x y "m ago" "h ago" (by decide) (by decide)
  have hmd : ∀ x y : String, x ++ "m ago" ≠ y ++ "d ago" := fun x y =>
    append_suffix_ne x y "m ago" "d ago" (by decide) (by decide)
  have hhd : ∀ x y : String, x ++ "h ago" ≠ y ++ "d ago" := fun x y =>
    append_suffix_ne x y "h ago" "d ago" (by decide) (by decide)
  have B1 : now - timestamp < 60 → formatTimeAgo now timestamp = "Just now" :=
    fun h => by unfold formatTimeAgo; rw [if_pos h]
  have B2 : 60 ≤ now - timestamp → now - timestamp < 3600 →
      formatTimeAgo now timestamp =
        toString (Int.fdiv (now - timestamp) 60) ++ "m ago" := fun h1 h2 => by
    unfold formatTimeAgo
    rw [if_neg (by omega), if_pos h2]
  have B3 : 3600 ≤ now - timestamp → now - timestamp < 86400 →
      formatTimeAgo now timestamp =
        toString (Int.fdiv (now - timestamp) 3600) ++ "h ago" :=
    fun h1 h2 => by
      unfold formatTimeAgo
      rw [if_neg (by omega), if_neg (by omega), if_pos h2]
  have B4 : 86400 ≤ now - timestamp →
      formatTimeAgo now timestamp =
        toString (Int.fdiv (now - timestamp) 86400) ++ "d ago" := fun h => by
    unfold formatTimeAgo
    rw [if_neg (by omega), if_neg (by omega), if_neg (by omega)]
  refine ⟨⟨fun he => ?_, B1⟩, ⟨fun he => ?_, fun h => B2 h.1 h.2⟩,
    ⟨fun he => ?_, fun h => B3 h.1 h.2⟩, B4⟩
  · by_contra hlt
    push_neg at hlt
    rcases lt_or_ge (now - timestamp) 3600 with h2 | h2
    · exact hJm _ (he.symm.trans (B2 hlt h2))
    · rcases lt_or_ge (now - timestamp) 86400 with h3 | h3
      · exact hJh _ (he.symm.trans (B3 h2 h3))
      · exact hJd _ (he.symm.trans (B4 h3))
  · by_contra hq
    rcases lt_or_ge (now - timestamp) 60 with h1 | h1
    · exact hJm _ ((B1 h1).symm.trans he)
    · rcases lt_or_ge (now - timestamp) 3600 with h2 | h2
      · exact hq ⟨h1, h2⟩
      · rcases lt_or_ge (now - timestamp) 86400 with h3 | h3
        · exact hmh _ _ (he.symm.trans (B3 h2 h3))
        · exact hmd _ _ (he.symm.trans (B4 h3))
  · by_contra hq
    rcases lt_or_ge (now - timestamp) 60 with h1 | h1
    · exact hJh _ ((B1 h1).symm.trans he)
    · rcases lt_or_ge (now - timestamp) 3600 with h2 | h2
      · exact hmh _ _ ((B2 h1 h2).symm.trans he)
      · rcases lt_or_ge (now - timestamp) 86400 with h3 | h3
        · exact hq ⟨h2, h3⟩
        · exact hhd _ _ (he.symm.trans (B4 h3))

/-- Witness for C10_formatTimeAgo: a diff of 100000 seconds (at least 86400)
formats as "1d ago". -/
theorem C10_formatTimeAgo_witness : formatTimeAgo 100000 0 = "1d ago" := by
  have h := (C10_formatTimeAgo 100000 0).2.2.2 (by decide)
  exact h.trans (by decide)

/-- One row of the Recent alerts section (alerts/page.tsx lines 543 to 588):
the five texts the page renders for an occurrence. -/
structure AlertRow where
  title : String
  subtitle : String
  agentLabel : String
  severityLabel : String
  timeLabel : String
deriving DecidableEq

/-- The list of texts a row displays. -/
def AlertRow.texts (r : AlertRow) : List String :=
  [r.title, r.subtitle, r.agentLabel, r.severityLabel, r.timeLabel]

/-- Rendering of one occurrence, transcribed from the JSX of the Recent
alerts list: rule_name or the metric as fallback, message or anomaly_type as
fallback, the agent label fallback chain, the severity badge text and the
created_at date text (the locale formatting of new Date(...).toLocaleString
is abstracted as the formatTime parameter). -/
def renderAlertRow (formatTime : Nat → String) (a : AlertOccurrence) :
    AlertRow :=
  { title := jsStringOr a.rule_name a.metric,
    subtitle := if a.message = "" then a.anomaly_type else a.message,
    agentLabel :=
      "Agent: " ++
        jsStringOr a.agent_display_name
          (jsStringOr a.agent_thing_name a.agent_id),
    severityLabel := a.severity.toDisplay,
    timeLabel := formatTime a.created_at }

/-- The Recent alerts section renders one row per fetched occurrence. -/
def renderAlertRows (formatTime : Nat → String)
    (history : List AlertOccurrence) : List AlertRow :=
  history.map (renderAlertRow formatTime)

/-- fetchAlertHistory (alerts/page.tsx lines 108 to 115): the alerts view
fetches the occurrence history of the selected group with limit 50. -/
def fetchAlertHistoryRequest (groupId : String) : ApiRequest :=
  listGroupAlertsRequest groupId (some 50) none

/-- Test whether the second character list is an initial segment of the
first. -/
def startsWithChars : List Char → List Char → Bool
  | _, [] => true
  | [], _ :: _ => false
  | c :: cs, p :: ps => c = p && startsWithChars cs ps

/-- Test whether the second character list occurs inside the first. -/
def hasSubChars : List Char → List Char → Bool
  | [], pat => pat.isEmpty
  | s@(_ :: rest), pat => startsWithChars s pat || hasSubChars rest pat

/-- Substring occurrence test on strings. -/
def containsText (s pat : String) : Bool :=
  hasSubChars s.data pat.data

/-- Concrete fetched occurrence of the C7 scenario (its group also has an
alert channel whose delivery retries are exhausted on the backend; api.ts
exposes no delivery-log endpoint, so no delivery information reaches the
page). -/
def occ1 : AlertOccurrence :=
  { id := "o1", account_id := "a1", group_id := "g1", agent_id := "agent-1",
    rule_id := "r1", severity := .warning, metric := "cpu",
    message := "cpu >= 90 for 30s", anomaly_type := "threshold",
    created_at := 1700000000, agent_display_name := some "Store PC",
    agent_thing_name := none, rule_name := some "CPU spike" }

/-- C7 counterexample: the Recent alerts view is a function of the fetched
occurrence list alone (no delivery data is fetched or renderable), and for
the concrete history [occ1] its entire rendered content is the single row
below, none of whose texts contains "failed"; the claimed per-channel
"failed" delivery status is displayed nowhere. -/
theorem C7_counterexample :
    renderAlertRows (fun _ => "11/14/2023, 10:13:20 PM") [occ1] =
      [{ title := "CPU spike", subtitle := "cpu >= 90 for 30s",
         agentLabel := "Agent: Store PC", severityLabel := "warning",
         timeLabel := "11/14/2023, 10:13:20 PM" }] ∧
    (renderAlertRows (fun _ => "11/14/2023, 10:13:20 PM") [occ1]).all
        (fun r => r.texts.all (fun s => ! containsText s "failed")) = true := by
  refine ⟨by decide, by decide⟩

/-- C7 (amended): the alerts view requests the occurrence history of the
selected group via listGroupAlerts with limit 50 (a GET of
/agents/groups/{gid}/alerts?limit=50) and renders one row per returned
occurrence — none is dropped — showing each occurrence's severity and its
creation time; per-channel delivery status is not part of the view. -/
theorem C7_alert_history_view (gid : String) (formatTime : Nat → String)
    (history : List AlertOccurrence) :
    fetchAlertHistoryRequest gid =
      { url := "/agents/groups/" ++ gid ++ "/alerts" ++ "?limit=50",
        method := "GET", hasBody := false } ∧
    (renderAlertRows formatTime history).length = history.length ∧
    List.Forall₂
      (fun (a : AlertOccurrence) (r : AlertRow) =>
        r.severityLabel = a.severity.toDisplay ∧
        r.timeLabel = formatTime a.created_at)
      history (renderAlertRows formatTime history) := by
  refine ⟨rfl, by simp [renderAlertRows], ?_⟩
  induction history with
  | nil => exact List.Forall₂.nil
  | cons a rest ih => exact List.Forall₂.cons ⟨rfl, rfl⟩ ih

/-- Witness for C7_alert_history_view at a concrete group and history. -/
theorem C7_alert_history_view_witness :
    (renderAlertRows (fun _ => "t") [occ1]).length = 1 :=
  (C7_alert_history_view "g1" (fun _ => "t") [occ1]).2.1
